import Mathlib

/-!
Shallow embedding of the videotube backend identity layer
(`src/controllers/user.controller.js`) together with the parts of the data
model that the controller relies on (`user.model.js` and the token utilities
are not part of the sources; where needed they are modelled from the spec, as
marked on each definition).

Conventions of the embedding:
* MongoDB ObjectIds are `Nat`.
* JS strings are Lean `String`; a JS value that may be `undefined` is an
  `Option`.
* Handlers that can write the store return the post-state next to the
  `Except` result; every `throw` happens before the corresponding write, so
  error outcomes return the original state, exactly as in the source.
* The avatar/cover handlers additionally return the ordered list of external
  effects (persist to the account store, delete from object storage) so that
  ordering claims can be stated.
-/

namespace VideoTube

/-- MongoDB ObjectId, modelled as a natural number. -/
abbrev OId := Nat

instance {ε α : Type} [DecidableEq ε] [DecidableEq α] : DecidableEq (Except ε α) :=
  fun a b =>
    match a, b with
    | .error e, .error f => decidable_of_iff (e = f) (by simp)
    | .ok x, .ok y => decidable_of_iff (x = y) (by simp)
    | .error _, .ok _ => isFalse (by simp)
    | .ok _, .error _ => isFalse (by simp)

/-- A signed token. `user.model.js` (not under the sources) signs JWTs over a
class-specific secret, the account id, and issue time; `Modelled from the
spec:` TokenService issues signed, time-bounded credentials carrying the
account id, pairwise distinct across issuances (here via a monotone nonce
drawn from the store state). Byte-comparison of JWT strings becomes
decidable equality of this structure. -/
structure Tok where
  cls : String
  uid : OId
  nonce : Nat
deriving DecidableEq

/-- `ApiError` from `utils/ApiError.js`: an HTTP status code plus message. -/
structure Err where
  statusCode : Nat
  message : String
deriving DecidableEq

/-- A subscription edge, `(subscriber, channel)`, per the spec data model. -/
structure Sub where
  subscriber : OId
  channel : OId
deriving DecidableEq

/-- A video, referenced by id and owner only (spec: external entity). -/
structure Video where
  _id : OId
  owner : OId
deriving DecidableEq

/-- Modelled from the spec: the Account record of `user.model.js` (not under
the sources): username/email stored case-folded by the schema lowercase
setters, hashed password, at most one live refresh token, ordered
`watchHistory` of video ids. -/
structure User where
  _id : OId
  username : String
  email : String
  fullName : String
  avatar : String
  coverImage : String
  password : String
  refreshToken : Option Tok
  watchHistory : List OId
deriving DecidableEq

/-- A user document as serialized to a response. `password`/`refreshToken`
are `none` when a `.select("-password ...")` projection stripped them (or,
for the token, when none is stored). -/
structure UserView where
  _id : OId
  username : String
  email : String
  fullName : String
  avatar : String
  coverImage : String
  password : Option String
  refreshToken : Option Tok
  watchHistory : List OId
deriving DecidableEq

/-- The whole persisted state: account store, subscription edges, videos,
plus the id/nonce sources that keep creation and token issuance fresh. -/
structure St where
  users : List User
  subscriptions : List Sub
  videos : List Video
  nextId : OId
  nonceCtr : Nat
deriving DecidableEq

/-- External effects of the media-update handlers, in execution order. -/
inductive Ev where
  | persistEv (field : String) (url : String)
  | deleteEv (url : String)
deriving DecidableEq

/-- JS `String.prototype.toLowerCase` restricted to the ASCII range used by
usernames/emails; also the mongoose `lowercase: true` schema setter.
Written over the character list so that it evaluates by kernel reduction. -/
def jsToLowerCase (s : String) : String :=
  String.mk (s.data.map Char.toLower)

/-- JS `String.prototype.trim`: strip leading and trailing whitespace.
Written over the character list so that it evaluates by kernel reduction. -/
def jsTrim (s : String) : String :=
  String.mk (((s.data.dropWhile Char.isWhitespace).reverse.dropWhile Char.isWhitespace).reverse)

/-- Modelled from the spec: the bcrypt pre-save hash of `user.model.js` (not
under the sources), as an injective tagging so that hash comparison is
equality of hashes. -/
def hashPw (s : String) : String :=
  "bcrypt$" ++ s

/-- Modelled from the spec: `user.isPasswordCorrect(candidate)` of
`user.model.js` (not under the sources) — bcrypt comparison of the candidate
against the stored hash. -/
def isPasswordCorrect (u : User) (candidate : String) : Bool :=
  u.password == hashPw candidate

/-- JS truthiness of a possibly-undefined string (`undefined` and `""` are
falsy). -/
def truthy (s : Option String) : Bool :=
  match s with
  | some v => !(v == "")
  | none => false

/-- Full mongoose document serialized with no projection: every stored field
appears, the password hash included. -/
def fullDoc (u : User) : UserView :=
  { _id := u._id, username := u.username, email := u.email, fullName := u.fullName,
    avatar := u.avatar, coverImage := u.coverImage, password := some u.password,
    refreshToken := u.refreshToken, watchHistory := u.watchHistory }

/-- `.select("-password")`: the document with only the password stripped. -/
def selectNoPassword (u : User) : UserView :=
  { fullDoc u with password := none }

/-- `.select("-password -refreshToken")`: both sensitive fields stripped. -/
def selectNoPasswordNoRefresh (u : User) : UserView :=
  { fullDoc u with password := none, refreshToken := none }

/-- `User.findById` / `findOne({_id})` on the account store. -/
def findById (users : List User) (i : OId) : Option User :=
  users.find? (fun u => u._id == i)

/-- Apply a field update to the account with the given id (the effect of
`user.save()` / `findByIdAndUpdate` on the store). -/
def setUserFields (users : List User) (i : OId) (f : User → User) : List User :=
  users.map (fun u => if u._id == i then f u else u)

/-- The status code of a handler result, when it is an error. -/
def statusOf {α : Type} (r : Except Err α) : Option Nat :=
  match r with
  | .error e => some e.statusCode
  | .ok _ => none

/-- An object-storage collaborator whose upload always yields a URL; used to
instantiate the handlers (which are parametric in the collaborator) at
concrete inputs. -/
def okUpload : String → Option String :=
  fun p => some ("cloudinary/" ++ p)

/-- `genarateAccessTokenAndRefreshToken` (user.controller.js lines 12-31):
find the user, generate an access and a refresh token, store the refresh
token on the user (`save` without validation), return the pair. A missing
user makes the body throw inside the try, surfacing as the catch-all 500. -/
def genarateAccessTokenAndRefreshToken (st : St) (userid : OId) :
    Except Err (St × Tok × Tok) :=
  match findById st.users userid with
  | none =>
    .error ⟨500, "Something went wrong for generate Access token or Refresh token"⟩
  | some _ =>
    let accessToken : Tok := ⟨"access", userid, st.nonceCtr⟩
    let refreshToken : Tok := ⟨"refresh", userid, st.nonceCtr + 1⟩
    let users2 := setUserFields st.users userid
      (fun u => { u with refreshToken := some refreshToken })
    .ok ({ st with users := users2, nonceCtr := st.nonceCtr + 2 },
      accessToken, refreshToken)

/-- Request body of `registerUser`; the four text fields arrive as strings,
the two file references (`req.files`) may be absent. -/
structure RegisterReq where
  username : String
  email : String
  fullName : String
  password : String
  avatarLocalPath : Option String
  coverImageLocalPath : Option String
deriving DecidableEq

/-- `registerUser` (user.controller.js lines 33-103), parametric in the
object-storage collaborator `upload`.

* Lines 38-42: 400 when any of the four fields is blank after trimming.
* Lines 45-48: `findOne({$or: [{username}, {email}]})`; the schema lowercase
  setters fold the queried values (mongoose applies setters to query
  filters), stored values are compared byte-wise — so the check compares the
  stored field against the folded request value. A hit is a 400 conflict.
* Lines 49-102: the remaining body sits in a `try` whose `catch` rethrows
  every error as `ApiError(500, "Internal server error during registration")`
  — including the 400 thrown at line 60 for a missing avatar and the 500 at
  line 72 for a failed upload.
* On success the account is created with folded username/email, hashed
  password, the uploaded URLs (cover defaults to `""`), and returned through
  a `-password -refreshToken` projection. -/
def registerUser (upload : String → Option String) (st : St) (r : RegisterReq) :
    St × Except Err UserView :=
  if ([r.username, r.email, r.fullName, r.password].any (fun field => jsTrim field == "")) then
    (st, .error ⟨400, "All fields are required"⟩)
  else
    match st.users.find? (fun u =>
        u.username == jsToLowerCase r.username || u.email == jsToLowerCase r.email) with
    | some _ => (st, .error ⟨400, "User already exists"⟩)
    | none =>
      match r.avatarLocalPath with
      | none => (st, .error ⟨500, "Internal server error during registration"⟩)
      | some avatarLocalPath =>
        match upload avatarLocalPath with
        | none => (st, .error ⟨500, "Internal server error during registration"⟩)
        | some avatarUrl =>
          let coverUrl :=
            match r.coverImageLocalPath with
            | some cp =>
              match upload cp with
              | some cu => cu
              | none => ""
            | none => ""
          let newUser : User :=
            { _id := st.nextId, username := jsToLowerCase r.username,
              email := jsToLowerCase r.email, fullName := r.fullName,
              avatar := avatarUrl, coverImage := coverUrl,
              password := hashPw r.password, refreshToken := none,
              watchHistory := [] }
          ({ st with users := st.users ++ [newUser], nextId := st.nextId + 1 },
            .ok (selectNoPasswordNoRefresh newUser))

/-- Payload of a successful login: sanitized user (possibly `none` if the
re-fetch after token generation found nothing, in which case the JS response
carries `user: null`), plus the token pair. -/
structure LoginData where
  user : Option UserView
  accessToken : Tok
  refreshToken : Tok
deriving DecidableEq

/-- `loginUser` (user.controller.js lines 105-154): 400 on falsy email, 404
when no account matches the lowercased email, 401 on a failed password
comparison; otherwise issue and persist a token pair and return the account
re-fetched through a `-password -refreshToken` projection. -/
def loginUser (st : St) (email password : String) : St × Except Err LoginData :=
  if email == "" then (st, .error ⟨400, "email is required"⟩)
  else
    match st.users.find? (fun u => u.email == jsToLowerCase email) with
    | none => (st, .error ⟨404, "User does not exist"⟩)
    | some user =>
      if !(isPasswordCorrect user password) then
        (st, .error ⟨401, "Invalid user credentials"⟩)
      else
        match genarateAccessTokenAndRefreshToken st user._id with
        | .error e => (st, .error e)
        | .ok (st2, accessToken, refreshToken) =>
          (st2, .ok
            { user := (findById st2.users user._id).map selectNoPasswordNoRefresh,
              accessToken := accessToken, refreshToken := refreshToken })

/-- `refreshAccessToken` (user.controller.js lines 180-239). The handler
401s when no token is presented (line 186) and then enters a `try` whose
first step evaluates `jwt.verify(...)` (line 192). `jwt` is never imported
or declared anywhere in user.controller.js, so that evaluation raises
`ReferenceError: jwt is not defined`, which the `catch` at line 235 rethrows
as `ApiError(401, error.message)`. No later line of the `try` block — the
stored-token comparison at line 206, the rotation at line 211 (which would
in any case read the new token under the wrong name `newRefreshToken`) — is
reachable, and the state is never modified. -/
def refreshAccessToken (st : St) (incomingRefreshToken : Option Tok) :
    Except Err (St × Tok × Tok) :=
  match incomingRefreshToken with
  | none => .error ⟨401, "Unauthorized request"⟩
  | some _ => .error ⟨401, "jwt is not defined"⟩

/-- ASCII lowercase letter, the `[a-z]` class of the strength regex. -/
def isAsciiLower (c : Char) : Bool :=
  'a' ≤ c && c ≤ 'z'

/-- ASCII uppercase letter, the `[A-Z]` class of the strength regex. -/
def isAsciiUpper (c : Char) : Bool :=
  'A' ≤ c && c ≤ 'Z'

/-- ASCII digit, the `\d` class of the strength regex. -/
def isAsciiDigit (c : Char) : Bool :=
  '0' ≤ c && c ≤ '9'

/-- The fixed symbol set `[@$!%*?&]` of the strength regex. -/
def isSpecialSym (c : Char) : Bool :=
  c == '@' || c == '$' || c == '!' || c == '%' || c == '*' || c == '?' || c == '&'

/-- A character admitted by the anchored body class `[A-Za-z\d@$!%*?&]`. -/
def inPasswordAlphabet (c : Char) : Bool :=
  isAsciiLower c || isAsciiUpper c || isAsciiDigit c || isSpecialSym c

/-- The strength regex of `currentPasswordChange` (user.controller.js lines
266-267): `^(?=.*[a-z])(?=.*[A-Z])(?=.*\d)(?=.*[@$!%*?&])[A-Za-z\d@$!%*?&]{10,}$`
— the four lookaheads demand one character of each class somewhere, and the
anchored body demands at least 10 characters all drawn from the union
class. -/
def passwordRegexTest (s : String) : Bool :=
  s.data.any isAsciiLower && s.data.any isAsciiUpper && s.data.any isAsciiDigit
    && s.data.any isSpecialSym && s.data.all inPasswordAlphabet
    && decide (10 ≤ s.data.length)

/-- The strength-failure message of user.controller.js lines 270-273. -/
def strengthMessage : String :=
  "New password must be at least 10 characters long, contain a mix of uppercase and lowercase letters, a number, and a special character."

/-- `currentPasswordChange` (user.controller.js lines 241-281): 404 when the
caller's account is missing, **400** (`"Invalid old password"`, line 254)
when the old password fails the hash comparison, 400 when the new password
hashes to the stored hash (i.e. equals the current password), 400 when the
strength regex rejects it; otherwise store the new hash. Every throw
precedes the `save`, so error outcomes leave the store untouched. -/
def currentPasswordChange (st : St) (userId : OId) (oldPassword newPassword : String) :
    St × Except Err Unit :=
  match findById st.users userId with
  | none => (st, .error ⟨404, "User not found"⟩)
  | some user =>
    if !(isPasswordCorrect user oldPassword) then
      (st, .error ⟨400, "Invalid old password"⟩)
    else if isPasswordCorrect user newPassword then
      (st, .error ⟨400, "New password cannot be the same as the old password"⟩)
    else if !(passwordRegexTest newPassword) then
      (st, .error ⟨400, strengthMessage⟩)
    else
      let users2 := setUserFields st.users userId
        (fun u => { u with password := hashPw newPassword })
      ({ st with users := users2 }, .ok ())

/-- `getCurrentUser` (user.controller.js lines 283-294): `findById` with
**no** projection — the response carries the full document, the stored
password hash and refresh token included. -/
def getCurrentUser (st : St) (userId : OId) : Except Err UserView :=
  match findById st.users userId with
  | none => .error ⟨404, "User not found"⟩
  | some user => .ok (fullDoc user)

/-- `updateAccountDetails` (user.controller.js lines 296-344).

* Lines 301-306: when a truthy username is supplied, `findOne({username})`
  (query value folded by the schema lowercase setter) — a hit on a
  *different* account is a 400 conflict.
* Lines 309-315: fetch the caller's document (a missing document makes
  `currentUser.fullName` raise a TypeError, surfacing as a 500) and reject
  with 400 when the raw supplied `fullName` strictly equals the stored one
  **or** the raw supplied `username` strictly equals the stored one.
* Lines 318-331: `$set` only the truthy fields (the username through the
  lowercase setter) and return the updated document with **no**
  projection. -/
def usernameConflict (st : St) (userId : OId) (username : Option String) : Bool :=
  truthy username &&
    (match st.users.find? (fun u => u.username == jsToLowerCase (username.getD "")) with
     | some existingUser => !(existingUser._id == userId)
     | none => false)

/-- Body of `updateAccountDetails` past the conflict pre-check; see the
comment on `usernameConflict` for the line map of the first stage. -/
def updateAccountDetails (st : St) (userId : OId) (fullName username : Option String) :
    St × Except Err UserView :=
  if usernameConflict st userId username then
    (st, .error ⟨400, "Username already exists. Try another one "⟩)
  else
    match findById st.users userId with
    | none => (st, .error ⟨500, "TypeError: Cannot read properties of null"⟩)
    | some currentUser =>
      if fullName == some currentUser.fullName || username == some currentUser.username then
        (st, .error ⟨400, "New full name and username cannot be the same as the old ones"⟩)
      else
        let users2 := setUserFields st.users userId (fun u =>
          let u1 := if truthy fullName then { u with fullName := fullName.getD "" } else u
          if truthy username then { u1 with username := jsToLowerCase (username.getD "") } else u1)
        match users2.find? (fun u => u._id == userId) with
        | none => (st, .error ⟨500, "Something went wrong while updating the user"⟩)
        | some updatedUser => ({ st with users := users2 }, .ok (fullDoc updatedUser))

/-- `updateAvatarFile` (user.controller.js lines 346-388), parametric in the
object-storage collaborator. After the upload succeeds, the handler FIRST
awaits `deleteCloudinaryImage(oldAvatarUrl)` when the old URL is truthy and
differs from the new one (lines 368-371), and only THEN persists the new URL
with `findByIdAndUpdate` (lines 374-378), returning the updated document
through a `-password` projection (the refresh token is not stripped). The
effect list records that order. -/
def updateAvatarFile (upload : String → Option String) (st : St) (userId : OId)
    (filePath : Option String) : St × List Ev × Except Err UserView :=
  match findById st.users userId with
  | none => (st, [], .error ⟨404, "User not found"⟩)
  | some user =>
    match filePath with
    | none => (st, [], .error ⟨400, "Avatar file is missing"⟩)
    | some avatarLocalPath =>
      match upload avatarLocalPath with
      | none => (st, [], .error ⟨500, "Failed to upload avatar to Cloudinary"⟩)
      | some avatarUrl =>
        let oldAvatarUrl := user.avatar
        let deleteEvs :=
          if !(oldAvatarUrl == "") && !(oldAvatarUrl == avatarUrl) then
            [Ev.deleteEv oldAvatarUrl]
          else []
        let users2 := setUserFields st.users userId (fun u => { u with avatar := avatarUrl })
        let res : Except Err UserView :=
          match users2.find? (fun u => u._id == userId) with
          | none => .error ⟨500, "Failed to update user with new avatar"⟩
          | some updatedUser => .ok (selectNoPassword updatedUser)
        ({ st with users := users2 }, deleteEvs ++ [Ev.persistEv "avatar" avatarUrl], res)

/-- `updateCoverImageFile` (user.controller.js lines 390-439): the mirror
handler persists FIRST — `findByIdAndUpdate` at lines 415-419 (with a
`-password -refreshToken` projection) — and deletes the old asset AFTER,
at lines 429-431, again only when the old URL is truthy and differs. -/
def updateCoverImageFile (upload : String → Option String) (st : St) (userId : OId)
    (filePath : Option String) : St × List Ev × Except Err UserView :=
  match findById st.users userId with
  | none => (st, [], .error ⟨404, "User not found"⟩)
  | some user =>
    match filePath with
    | none => (st, [], .error ⟨400, "Cover image file is missing"⟩)
    | some coverImageLocalPath =>
      match upload coverImageLocalPath with
      | none => (st, [], .error ⟨500, "Failed to upload cover image to Cloudinary"⟩)
      | some coverUrl =>
        let oldCoverImageUrl := user.coverImage
        let deleteEvs :=
          if !(oldCoverImageUrl == "") && !(oldCoverImageUrl == coverUrl) then
            [Ev.deleteEv oldCoverImageUrl]
          else []
        let users2 := setUserFields st.users userId (fun u => { u with coverImage := coverUrl })
        let res : Except Err UserView :=
          match users2.find? (fun u => u._id == userId) with
          | none => .error ⟨500, "Something went wrong while updating the cover image"⟩
          | some updatedUser => .ok (selectNoPasswordNoRefresh updatedUser)
        ({ st with users := users2 }, [Ev.persistEv "coverImage" coverUrl] ++ deleteEvs, res)

/-- The projected channel record of `getUserChannelProfile`. -/
structure ChannelProfile where
  fullName : String
  avatar : String
  coverImage : String
  username : String
  email : String
  subscribersCount : Nat
  subscribedToCount : Nat
  isCurrentUserSubscribe : Bool
deriving DecidableEq

/-- `getUserChannelProfile` (user.controller.js lines 441-513): 404 when the
username parameter is absent or blank after trimming; otherwise the
aggregation matches accounts whose stored username equals the lowercased
parameter, `$lookup`s the subscription edges by `channel` (as `subscribers`)
and by `subscriber` (as `subscribedTo`), adds the two `$size` counts and the
`$in`-membership of the caller's id in `$subscribers.subscriber`, and the
handler returns the first matched record (404 when the match is empty). -/
def getUserChannelProfile (st : St) (username : Option String) (viewerId : OId) :
    Except Err ChannelProfile :=
  match username with
  | none => .error ⟨404, "Username is missing"⟩
  | some un =>
    if jsTrim un == "" then .error ⟨404, "Username is missing"⟩
    else
      match st.users.filter (fun u => u.username == jsToLowerCase un) with
      | [] => .error ⟨404, "Channel does not exist"⟩
      | u :: _ =>
        let subscribers := st.subscriptions.filter (fun s => s.channel == u._id)
        let subscribedTo := st.subscriptions.filter (fun s => s.subscriber == u._id)
        .ok { fullName := u.fullName, avatar := u.avatar, coverImage := u.coverImage,
              username := u.username, email := u.email,
              subscribersCount := subscribers.length,
              subscribedToCount := subscribedTo.length,
              isCurrentUserSubscribe := (subscribers.map (fun s => s.subscriber)).contains viewerId }

/-- The owner projection of the watch-history pipeline (fullName, avatar,
username). -/
structure OwnerProj where
  fullName : String
  avatar : String
  username : String
deriving DecidableEq

/-- An enriched watch-history entry: the video with its owner collapsed by
`$first` to an optional single object (`none` when the owner join found
nothing, i.e. the field comes out missing). -/
structure VideoView where
  _id : OId
  owner : Option OwnerProj
deriving DecidableEq

/-- Array-valued field access on a user document, by the literal name the
aggregation passes as `localField`. MongoDB field names are case-sensitive:
the stored field is `watchHistory`, so only that exact spelling resolves;
any other name is missing on the document (and `$lookup` then matches the
missing value as `null`). -/
def User.arrayField (u : User) (name : String) : Option (List OId) :=
  if name == "watchHistory" then some u.watchHistory else none

/-- `$lookup` from `videos` with `foreignField: _id` against an array-valued
(or missing) `localField`: the matched videos are returned in the FOREIGN
collection's order, not the order of the local array; a missing local field
matches as `null`, which no video id equals, so the result is empty. -/
def lookupVideos (videos : List Video) (localVals : Option (List OId)) : List Video :=
  match localVals with
  | none => []
  | some ids => videos.filter (fun v => ids.contains v._id)

/-- `getWatchHistory` (user.controller.js lines 515-574): match the caller's
account, `$lookup` the videos with `localField: "watchhistory"` — note the
all-lowercase spelling at line 526, while the stored field is `watchHistory`
— enrich each matched video with its owner projected to
fullName/avatar/username and collapsed by `$first`, and return the enriched
array of the first matched account (a 404 response when no account
matched; the array itself being empty is returned as a 200). -/
def getWatchHistory (st : St) (userId : OId) : Except Err (List VideoView) :=
  match st.users.filter (fun u => u._id == userId) with
  | [] => .error ⟨404, "No watch history found"⟩
  | u :: _ =>
    let wh := lookupVideos st.videos (u.arrayField "watchhistory")
    .ok (wh.map (fun v =>
      { _id := v._id,
        owner := ((st.users.filter (fun o => o._id == v.owner)).map
          (fun o => ({ fullName := o.fullName, avatar := o.avatar,
                       username := o.username } : OwnerProj))).head? }))

/-- A concrete registered account (stored username/email case-folded, as the
schema setters leave them). -/
def uOne : User :=
  { _id := 1, username := "alice", email := "a@x.com", fullName := "Alice Doe",
    avatar := "cdn/old.png", coverImage := "cdn/cover.png",
    password := hashPw "Secret1@xy", refreshToken := none, watchHistory := [] }

/-- A store holding just `uOne`. -/
def stOne : St :=
  { users := [uOne], subscriptions := [], videos := [], nextId := 2, nonceCtr := 0 }

/-- A viewer whose stored watch history is the ordered sequence `[3, 1, 2]`. -/
def uViewer : User :=
  { _id := 1, username := "viewer", email := "v@x.com", fullName := "Vera View",
    avatar := "cdn/v.png", coverImage := "", password := hashPw "Watch1@pass",
    refreshToken := none, watchHistory := [3, 1, 2] }

/-- The owner of the three videos below. -/
def uOwner : User :=
  { _id := 9, username := "owner9", email := "o@x.com", fullName := "Owen Owner",
    avatar := "cdn/o.png", coverImage := "", password := hashPw "Owner1@pass",
    refreshToken := none, watchHistory := [] }

/-- Store for the watch-history scenario: viewer, owner, and videos 1-3. -/
def stHist : St :=
  { users := [uViewer, uOwner], subscriptions := [],
    videos := [⟨1, 9⟩, ⟨2, 9⟩, ⟨3, 9⟩], nextId := 10, nonceCtr := 0 }

/-- Subscriber account A of the channel scenario. -/
def uA : User :=
  { _id := 1, username := "anna", email := "anna@x.com", fullName := "Anna A",
    avatar := "cdn/a.png", coverImage := "", password := hashPw "Anna1@pass!",
    refreshToken := none, watchHistory := [] }

/-- Subscriber account B of the channel scenario. -/
def uB : User :=
  { _id := 2, username := "ben", email := "ben@x.com", fullName := "Ben B",
    avatar := "cdn/b.png", coverImage := "", password := hashPw "Ben1@passw!",
    refreshToken := none, watchHistory := [] }

/-- The channel account C of the channel scenario. -/
def uC : User :=
  { _id := 3, username := "chanc", email := "c@x.com", fullName := "Chan C",
    avatar := "cdn/c.png", coverImage := "", password := hashPw "Chan1@pass!",
    refreshToken := none, watchHistory := [] }

/-- Account Z with no subscription edge toward C. -/
def uZ : User :=
  { _id := 4, username := "zed", email := "z@x.com", fullName := "Zed Z",
    avatar := "cdn/z.png", coverImage := "", password := hashPw "Zed1@passw!",
    refreshToken := none, watchHistory := [] }

/-- Store for the channel scenario: the edges toward C are exactly
`{A→C, B→C}`. -/
def stChan : St :=
  { users := [uA, uB, uC, uZ], subscriptions := [⟨1, 3⟩, ⟨2, 3⟩], videos := [],
    nextId := 5, nonceCtr := 0 }

/-- The `$in`-membership computed by the channel pipeline, rephrased as an
existential over the stored edges. -/
lemma contains_subscriber_iff (subs : List Sub) (cid viewer : OId) :
    ((subs.filter (fun s => s.channel == cid)).map (fun s => s.subscriber)).contains viewer = true
      ↔ ∃ s, s ∈ subs ∧ s.channel = cid ∧ s.subscriber = viewer := by
  simp [List.contains_iff_exists_mem_beq, List.mem_map, List.mem_filter, beq_iff_eq]
  tauto

/-- Claim C1: the spec's login-then-refresh rotation contract cannot be met
by the code. A login against a store with one registered account succeeds
and persists the fresh refresh token — but presenting exactly that token to
`refreshAccessToken` immediately afterwards yields 401: `jwt` is never
imported in user.controller.js, so `jwt.verify` at line 192 raises a
ReferenceError that the catch at line 235 rethrows as `ApiError(401, ...)`,
and no refresh request can ever reach the rotation or the response. -/
theorem refreshEndpoint_unreachable_success :
    (loginUser stOne "a@x.com" "Secret1@xy").2.map (fun d => d.refreshToken)
      = Except.ok ⟨"refresh", 1, 1⟩
    ∧ (loginUser stOne "a@x.com" "Secret1@xy").1.users.map (fun u => u.refreshToken)
      = [some ⟨"refresh", 1, 1⟩]
    ∧ refreshAccessToken (loginUser stOne "a@x.com" "Secret1@xy").1 (some ⟨"refresh", 1, 1⟩)
      = Except.error ⟨401, "jwt is not defined"⟩ :=
  ⟨by decide, by decide, by decide⟩

/-- Claim C2: for the account whose stored `watchHistory` is `[3, 1, 2]`
(with all three videos present in the store), `getWatchHistory` returns the
EMPTY list, not the ordered enriched sequence `[3, 1, 2]`: the pipeline
passes `localField: "watchhistory"` (line 526) while the stored field is
`watchHistory`, and MongoDB field access is case-sensitive, so the lookup
joins on a missing field and matches nothing. -/
theorem getWatchHistory_field_mismatch_empty :
    uViewer.watchHistory = [3, 1, 2]
    ∧ stHist.videos.map (fun v => v._id) = [1, 2, 3]
    ∧ getWatchHistory stHist 1 = Except.ok [] :=
  ⟨by decide, by decide, by decide⟩

/-- Claim C3: when the trimmed username parameter is non-blank and the match
stage finds the channel account `c` first, the returned profile counts the
edges whose `channel` is `c` as `subscribersCount`, and
`isCurrentUserSubscribe` is true iff the viewer's id appears as `subscriber`
on such an edge; concretely, with edges exactly `{1→3, 2→3}` toward channel
`uC`, viewer 1 sees `subscribersCount = 2` with the flag true and viewer 4
(no edge) sees the flag false. -/
theorem getUserChannelProfile_subscriber_flag (st : St) (un : String) (viewer : OId)
    (c : User) (rest : List User)
    (htrim : (jsTrim un == "") = false)
    (hmatch : st.users.filter (fun u => u.username == jsToLowerCase un) = c :: rest) :
    (∃ ch, getUserChannelProfile st (some un) viewer = Except.ok ch
      ∧ ch.subscribersCount = (st.subscriptions.filter (fun s => s.channel == c._id)).length
      ∧ (ch.isCurrentUserSubscribe = true
          ↔ ∃ s, s ∈ st.subscriptions ∧ s.channel = c._id ∧ s.subscriber = viewer))
    ∧ getUserChannelProfile stChan (some "chanC") 1
        = Except.ok ⟨"Chan C", "cdn/c.png", "", "chanc", "c@x.com", 2, 0, true⟩
    ∧ getUserChannelProfile stChan (some "chanC") 4
        = Except.ok ⟨"Chan C", "cdn/c.png", "", "chanc", "c@x.com", 2, 0, false⟩ := by
  refine ⟨?_, by decide, by decide⟩
  have hres : getUserChannelProfile st (some un) viewer
      = Except.ok ⟨c.fullName, c.avatar, c.coverImage, c.username, c.email,
          (st.subscriptions.filter (fun s => s.channel == c._id)).length,
          (st.subscriptions.filter (fun s => s.subscriber == c._id)).length,
          ((st.subscriptions.filter (fun s => s.channel == c._id)).map
            (fun s => s.subscriber)).contains viewer⟩ := by
    unfold getUserChannelProfile
    simp [htrim, hmatch]
  exact ⟨_, hres, rfl, contains_subscriber_iff st.subscriptions c._id viewer⟩

/-- Witness for C3 at the concrete channel scenario, viewer 1. -/
theorem getUserChannelProfile_subscriber_flag_witness :
    getUserChannelProfile stChan (some "chanC") 1
      = Except.ok ⟨"Chan C", "cdn/c.png", "", "chanc", "c@x.com", 2, 0, true⟩ :=
  (getUserChannelProfile_subscriber_flag stChan "chanC" 1 uC []
    (by decide) (by decide)).2.1

/-- Counterexample to claim C4: `getCurrentUser` (which performs `findById`
with no projection, lines 283-294) returns the account with the stored
password hash inside the response value. -/
theorem getCurrentUser_exposes_password_hash :
    (getCurrentUser stOne 1).map (fun v => v.password)
      = Except.ok (some (hashPw "Secret1@xy")) := by
  decide

/-- Claim C4 as amended: the account objects returned by register, login,
update-avatar and update-cover all have the password field stripped, but
get-current-account and update-profile return the full stored document, the
password hash included. -/
theorem password_field_exposure_by_endpoint :
    (∀ up st r st2 v, registerUser up st r = (st2, Except.ok v) → v.password = none)
    ∧ (∀ st e p st2 d w, loginUser st e p = (st2, Except.ok d) → d.user = some w →
        w.password = none)
    ∧ (∀ up st uid fp st2 evs v, updateAvatarFile up st uid fp = (st2, evs, Except.ok v) →
        v.password = none)
    ∧ (∀ up st uid fp st2 evs v, updateCoverImageFile up st uid fp = (st2, evs, Except.ok v) →
        v.password = none)
    ∧ (∀ st uid u, findById st.users uid = some u →
        getCurrentUser st uid = Except.ok (fullDoc u)
          ∧ (fullDoc u).password = some u.password)
    ∧ (∀ st uid fn un st2 v cur, findById st.users uid = some cur →
        updateAccountDetails st uid fn un = (st2, Except.ok v) → v.password.isSome = true) := by
  refine ⟨?_, ?_, ?_, ?_, ?_, ?_⟩
  · intro up st r st2 v h
    unfold registerUser at h
    repeat' split at h
    all_goals try simp_all [selectNoPasswordNoRefresh, fullDoc]
    all_goals (obtain ⟨h1, h2⟩ := h; rw [← h2])
  · intro st e p st2 d w h hw
    unfold loginUser at h
    repeat' split at h
    all_goals simp_all [selectNoPasswordNoRefresh, fullDoc]
    obtain ⟨h1, h2⟩ := h
    rw [← h2] at hw
    obtain ⟨lu, hlu, hw2⟩ := Option.map_eq_some'.mp hw
    simp [← hw2, selectNoPasswordNoRefresh, fullDoc]
  · intro up st uid fp st2 evs v h
    unfold updateAvatarFile at h
    repeat' split at h
    all_goals try simp_all [selectNoPassword, fullDoc]
    all_goals (repeat' split at h)
    all_goals try simp_all [selectNoPassword, fullDoc]
    all_goals (obtain ⟨h1, h2, h3⟩ := h; rw [← h3])
  · intro up st uid fp st2 evs v h
    unfold updateCoverImageFile at h
    repeat' split at h
    all_goals try simp_all [selectNoPasswordNoRefresh, fullDoc]
    all_goals (repeat' split at h)
    all_goals try simp_all [selectNoPasswordNoRefresh, fullDoc]
    all_goals (obtain ⟨h1, h2, h3⟩ := h; rw [← h3])
  · intro st uid u hfind
    unfold getCurrentUser
    simp [hfind, fullDoc]
  · intro st uid fn un st2 v cur hfind h
    unfold updateAccountDetails at h
    repeat' split at h
    all_goals try simp_all [fullDoc]
    all_goals (repeat' split at h)
    all_goals try simp_all [fullDoc]
    all_goals (obtain ⟨h1, h2⟩ := h; rw [← h2]; try rfl)

/-- Witness for C4 (amended): the get-current-account conjunct at the
concrete one-account store. -/
theorem password_field_exposure_by_endpoint_witness :
    getCurrentUser stOne 1 = Except.ok (fullDoc uOne)
      ∧ (fullDoc uOne).password = some uOne.password :=
  password_field_exposure_by_endpoint.2.2.2.2.1 stOne 1 uOne (by decide)

/-- Claim C5: for a stored account whose username/email sit in the store
case-folded (as the schema setters leave them), a registration request with
non-blank fields whose username or email collides under case-insensitive
comparison is rejected with the 400 conflict (`"User already exists"`), and
the store is unchanged. -/
theorem registerUser_case_insensitive_conflict (up : String → Option String) (st : St)
    (r : RegisterReq) (u : User) (hmem : u ∈ st.users)
    (hblank : ([r.username, r.email, r.fullName, r.password].any
        (fun field => jsTrim field == "")) = false)
    (hfoldU : jsToLowerCase u.username = u.username)
    (hfoldE : jsToLowerCase u.email = u.email)
    (hcoll : jsToLowerCase r.username = jsToLowerCase u.username
        ∨ jsToLowerCase r.email = jsToLowerCase u.email) :
    registerUser up st r = (st, Except.error ⟨400, "User already exists"⟩) := by
  have hp : (fun w => w.username == jsToLowerCase r.username
      || w.email == jsToLowerCase r.email) u = true := by
    rcases hcoll with h | h
    · simp only []
      rw [h, hfoldU]
      simp
    · simp only []
      rw [h, hfoldE]
      simp
  have hsome : (st.users.find? (fun w => w.username == jsToLowerCase r.username
      || w.email == jsToLowerCase r.email)).isSome := by
    rw [List.find?_isSome]
    exact ⟨u, hmem, hp⟩
  obtain ⟨w, hw⟩ := Option.isSome_iff_exists.mp hsome
  unfold registerUser
  simp [hblank, hw]

/-- Witness for C5: registering `"ALICE"` against the store holding the
folded `"alice"` hits the conflict. -/
theorem registerUser_case_insensitive_conflict_witness :
    registerUser okUpload stOne
      ⟨"ALICE", "other@x.com", "Alice Two", "Other1@pass", some "av.png", none⟩
      = (stOne, Except.error ⟨400, "User already exists"⟩) :=
  registerUser_case_insensitive_conflict okUpload stOne
    ⟨"ALICE", "other@x.com", "Alice Two", "Other1@pass", some "av.png", none⟩
    uOne (by decide) (by decide) (by decide) (by decide) (Or.inl (by decide))

/-- Counterexample to claim C6: a registration whose required text fields
are all non-blank, whose identifiers collide with nothing, but whose avatar
reference is ABSENT, fails with status 500, not 400 — the `ApiError(400)`
thrown for the missing avatar at line 60 sits inside the `try` whose `catch`
(lines 99-102) rethrows everything as a 500. -/
theorem registerUser_missing_avatar_500 :
    statusOf (registerUser okUpload stOne
        ⟨"bob", "b@x.com", "Bob B", "Bobpass1@x", none, none⟩).2 = some 500
    ∧ (500 : Nat) ≠ 400 :=
  ⟨by decide, by decide⟩

/-- Claim C6 as amended: a register request with any required field blank
after trimming fails with the 400 validation error before anything is
written; with non-blank fields and no identifier collision, an absent
avatar reference aborts registration with status 500 (the catch-all
rewraps the missing-avatar error); in both cases the store is returned
unchanged, so no account is created. -/
theorem registerUser_blank_400_missing_avatar_500 (up : String → Option String)
    (st : St) (r : RegisterReq) :
    (([r.username, r.email, r.fullName, r.password].any
        (fun field => jsTrim field == "")) = true →
      registerUser up st r = (st, Except.error ⟨400, "All fields are required"⟩))
    ∧ (([r.username, r.email, r.fullName, r.password].any
        (fun field => jsTrim field == "")) = false →
      st.users.find? (fun u => u.username == jsToLowerCase r.username
        || u.email == jsToLowerCase r.email) = none →
      r.avatarLocalPath = none →
      registerUser up st r
        = (st, Except.error ⟨500, "Internal server error during registration"⟩)) := by
  constructor
  · intro hb
    unfold registerUser
    simp [hb]
  · intro hb hf ha
    unfold registerUser
    simp [hb, hf, ha]

/-- Witness for C6 (amended): a blank fullName is rejected with 400, and the
same request with non-blank fields but no avatar is rejected with 500; the
store is unchanged both times. -/
theorem registerUser_blank_400_missing_avatar_500_witness :
    registerUser okUpload stOne ⟨"bob", "b@x.com", "  ", "Bobpass1@x", some "av.png", none⟩
      = (stOne, Except.error ⟨400, "All fields are required"⟩)
    ∧ registerUser okUpload stOne ⟨"bob", "b@x.com", "Bob B", "Bobpass1@x", none, none⟩
      = (stOne, Except.error ⟨500, "Internal server error during registration"⟩) :=
  ⟨(registerUser_blank_400_missing_avatar_500 okUpload stOne
      ⟨"bob", "b@x.com", "  ", "Bobpass1@x", some "av.png", none⟩).1 (by decide),
   (registerUser_blank_400_missing_avatar_500 okUpload stOne
      ⟨"bob", "b@x.com", "Bob B", "Bobpass1@x", none, none⟩).2 (by decide) (by decide) rfl⟩

/-- Counterexample to claim C7: a password change presenting a wrong old
password is rejected with status 400 (`"Invalid old password"`, line 254),
not the claimed 401 Unauthorized. -/
theorem changePassword_wrong_old_status_400 :
    currentPasswordChange stOne 1 "wrongpw" "GoodPass1@x"
      = (stOne, Except.error ⟨400, "Invalid old password"⟩)
    ∧ (400 : Nat) ≠ 401 :=
  ⟨by decide, by decide⟩

/-- Claim C7 as amended: whenever the supplied old password does not match
the stored hash, `currentPasswordChange` fails with status 400 (message
`"Invalid old password"`) and the store — in particular the stored hash —
is unchanged. -/
theorem changePassword_wrong_old_rejected_unchanged (st : St) (uid : OId)
    (oldPw newPw : String) (u : User)
    (hfind : findById st.users uid = some u)
    (hwrong : isPasswordCorrect u oldPw = false) :
    currentPasswordChange st uid oldPw newPw
      = (st, Except.error ⟨400, "Invalid old password"⟩) := by
  unfold currentPasswordChange
  simp [hfind, hwrong]

/-- Witness for C7 (amended) at the concrete one-account store. -/
theorem changePassword_wrong_old_rejected_unchanged_witness :
    currentPasswordChange stOne 1 "wrongpw" "GoodPass1@x"
      = (stOne, Except.error ⟨400, "Invalid old password"⟩) :=
  changePassword_wrong_old_rejected_unchanged stOne 1 "wrongpw" "GoodPass1@x" uOne
    (by decide) (by decide)

/-- Claim C8: with the old password verified, `currentPasswordChange`
rejects with 400 a new password that hashes to the stored hash (i.e. equals
the current password), and rejects with 400 any new password failing the
strength regex — leaving the store unchanged in both cases; concretely,
`"short1!"` fails the length bound, `"alllowercase1!"` the uppercase class,
and `"NoDigits!!"` the digit class. -/
theorem changePassword_same_or_weak_rejected (st : St) (uid : OId)
    (oldPw newPw : String) (u : User)
    (hfind : findById st.users uid = some u)
    (hold : isPasswordCorrect u oldPw = true) :
    (isPasswordCorrect u newPw = true →
      currentPasswordChange st uid oldPw newPw
        = (st, Except.error ⟨400, "New password cannot be the same as the old password"⟩))
    ∧ (isPasswordCorrect u newPw = false → passwordRegexTest newPw = false →
      currentPasswordChange st uid oldPw newPw = (st, Except.error ⟨400, strengthMessage⟩))
    ∧ passwordRegexTest "short1!" = false
    ∧ passwordRegexTest "alllowercase1!" = false
    ∧ passwordRegexTest "NoDigits!!" = false := by
  refine ⟨?_, ?_, by decide, by decide, by decide⟩
  · intro hsame
    unfold currentPasswordChange
    simp [hfind, hold, hsame]
  · intro hdiff hweak
    unfold currentPasswordChange
    simp [hfind, hold, hdiff, hweak]

/-- Witness for C8: the same-password and the too-weak rejection at the
concrete one-account store. -/
theorem changePassword_same_or_weak_rejected_witness :
    currentPasswordChange stOne 1 "Secret1@xy" "Secret1@xy"
      = (stOne, Except.error ⟨400, "New password cannot be the same as the old password"⟩)
    ∧ currentPasswordChange stOne 1 "Secret1@xy" "weak"
      = (stOne, Except.error ⟨400, strengthMessage⟩) :=
  ⟨(changePassword_same_or_weak_rejected stOne 1 "Secret1@xy" "Secret1@xy" uOne
      (by decide) (by decide)).1 (by decide),
   (changePassword_same_or_weak_rejected stOne 1 "Secret1@xy" "weak" uOne
      (by decide) (by decide)).2.1 (by decide) (by decide)⟩

/-- Counterexample to claim C9: on a successful `updateAvatarFile` whose new
URL differs from the stored one, the effect trace begins with the external
DELETION and the persist comes second — the deletion at lines 368-371 runs
before the `findByIdAndUpdate` at lines 374-378, so the new reference is not
persisted before the deletion is attempted. -/
theorem updateAvatar_deletes_before_persist :
    (updateAvatarFile okUpload stOne 1 (some "new.png")).2.1
      = [Ev.deleteEv "cdn/old.png", Ev.persistEv "avatar" "cloudinary/new.png"]
    ∧ (updateAvatarFile okUpload stOne 1 (some "new.png")).2.2.map (fun v => v.avatar)
      = Except.ok "cloudinary/new.png" :=
  ⟨by decide, by decide⟩

/-- Claim C9 as amended: `updateCoverImageFile` persists the new reference
first and then best-effort deletes the previous asset, while
`updateAvatarFile` deletes the previous asset BEFORE persisting the new
reference; in both handlers the deletion happens iff the previous reference
was non-empty and differs from the new URL — in particular an identical new
reference triggers no deletion. -/
theorem updateMedia_persist_delete_order (up : String → Option String) (st : St)
    (uid : OId) (p url : String) (u : User)
    (hfind : findById st.users uid = some u)
    (hup : up p = some url) :
    ((updateCoverImageFile up st uid (some p)).2.1.head?
        = some (Ev.persistEv "coverImage" url))
    ∧ ((u.coverImage == "") = false → (u.coverImage == url) = false →
      (updateCoverImageFile up st uid (some p)).2.1
        = [Ev.persistEv "coverImage" url, Ev.deleteEv u.coverImage])
    ∧ ((u.coverImage == "") = true ∨ (u.coverImage == url) = true →
      (updateCoverImageFile up st uid (some p)).2.1 = [Ev.persistEv "coverImage" url])
    ∧ ((u.avatar == "") = false → (u.avatar == url) = false →
      (updateAvatarFile up st uid (some p)).2.1
        = [Ev.deleteEv u.avatar, Ev.persistEv "avatar" url])
    ∧ ((u.avatar == url) = true →
      (updateAvatarFile up st uid (some p)).2.1 = [Ev.persistEv "avatar" url]) := by
  refine ⟨?_, ?_, ?_, ?_, ?_⟩
  · unfold updateCoverImageFile
    simp [hfind, hup]
  · intro h1 h2
    unfold updateCoverImageFile
    simp [hfind, hup, h1, h2]
  · intro h12
    unfold updateCoverImageFile
    rcases h12 with h1 | h1 <;> simp [hfind, hup, h1]
  · intro h1 h2
    unfold updateAvatarFile
    simp [hfind, hup, h1, h2]
  · intro h1
    unfold updateAvatarFile
    simp [hfind, hup, h1]

/-- Witness for C9 (amended): at the concrete one-account store, the cover
update emits persist-then-delete and the avatar update emits
delete-then-persist. -/
theorem updateMedia_persist_delete_order_witness :
    (updateCoverImageFile okUpload stOne 1 (some "newc.png")).2.1
      = [Ev.persistEv "coverImage" "cloudinary/newc.png", Ev.deleteEv "cdn/cover.png"]
    ∧ (updateAvatarFile okUpload stOne 1 (some "newc.png")).2.1
      = [Ev.deleteEv "cdn/old.png", Ev.persistEv "avatar" "cloudinary/newc.png"] :=
  ⟨(updateMedia_persist_delete_order okUpload stOne 1 "newc.png" "cloudinary/newc.png"
      uOne (by decide) (by decide)).2.1 (by decide) (by decide),
   (updateMedia_persist_delete_order okUpload stOne 1 "newc.png" "cloudinary/newc.png"
      uOne (by decide) (by decide)).2.2.2.1 (by decide) (by decide)⟩

/-- Claim C10: when the caller's account exists and at least one supplied
field strictly equals its stored counterpart — even if the other supplied
field differs — `updateAccountDetails` rejects the request with a 400 error
and the store is unchanged. -/
theorem updateAccountDetails_noop_rejected (st : St) (uid : OId)
    (fullName username : Option String) (cur : User)
    (hfind : findById st.users uid = some cur)
    (heq : fullName = some cur.fullName ∨ username = some cur.username) :
    (updateAccountDetails st uid fullName username).1 = st
    ∧ statusOf (updateAccountDetails st uid fullName username).2 = some 400 := by
  have hcond : (fullName == some cur.fullName || username == some cur.username) = true := by
    rcases heq with h | h <;> simp [h]
  rcases hc : usernameConflict st uid username with hfv | htv
  · unfold updateAccountDetails
    simp [hc, hfind, hcond, statusOf]
  · unfold updateAccountDetails
    simp [hc, statusOf]

/-- Witness for C10: supplying the stored fullName together with a fresh
username is rejected with 400, store unchanged. -/
theorem updateAccountDetails_noop_rejected_witness :
    (updateAccountDetails stOne 1 (some "Alice Doe") (some "fresh")).1 = stOne
    ∧ statusOf (updateAccountDetails stOne 1 (some "Alice Doe") (some "fresh")).2
      = some 400 :=
  updateAccountDetails_noop_rejected stOne 1 (some "Alice Doe") (some "fresh") uOne
    (by decide) (Or.inl (by decide))

end VideoTube
